import Mathlib

/-!
# HoloForge gesture-to-input-event synthesis engine: a shallow embedding

This file embeds the core of `src/services/handTrackingService.ts` (the
`HandTrackingService` class) in Lean 4 and proves the spec's testable
properties about it.

Modelling conventions:
* JavaScript numbers are embedded as exact rationals (`ℚ`); timestamps
  (`Date.now()`) as integers (`ℤ`, milliseconds).
* The per-frame body of `detectLoop` (lines 84-221 of the source) is the pure
  step function `detectStep`: it consumes the previous engine state and a
  `FrameInput` (the detected hand, if any, the current time, and the DOM
  ancestor chain under the cursor) and returns the next engine state together
  with the ordered list of side effects the loop performs that frame
  (`dispatchPointerEvent` / `dispatchWheelEvent` / `dispatchClickEvent` /
  `scrollable.scrollBy` calls and the host callback invocation).
* `Math.sqrt` appears in the source twice: in the pinch distance (line 114)
  and in the hand scale (line 123).  The pinch test `sqrt(dx²+dy²) < 0.06` is
  embedded by the equivalent exact comparison `dx²+dy² < 0.06²`
  (`isPinchingB`); the bridge to the real-valued Euclidean distance is proved
  in `pinch_iff_distance_below_threshold`.  The hand scale is a value carried
  across frames, so `HandData.handScale` carries it as a frame input (it is
  the wrist-to-middle-MCP Euclidean distance computed upstream of the state
  machine); no claim depends on its numeric derivation from the landmarks.
-/

-- Batteries seals the arithmetic of `Rat` behind `@[irreducible]`, which
-- blocks `decide` from evaluating the engine on concrete rational inputs;
-- restore the definitional transparency the kernel has anyway.
set_option allowUnsafeReducibility true in
attribute [semireducible] Rat.mul Rat.add Rat.sub Rat.inv

namespace HoloForge

/-- A normalized 2-D hand landmark, x and y in `[0,1]` (spec section 3). -/
structure Landmark where
  x : ℚ
  y : ℚ
  deriving DecidableEq, Repr

/-- The per-frame hand data the detect loop reads from the landmark result:
`indexTip` is `landmarks[8]`, `thumbTip` is `landmarks[4]`, and `handScale`
is the Euclidean distance between `landmarks[0]` (wrist) and `landmarks[9]`
(middle-finger MCP) computed at source lines 119-126. -/
structure HandData where
  indexTip : Landmark
  thumbTip : Landmark
  handScale : ℚ
  deriving DecidableEq, Repr

/-- Smoothing factor, source line 18: `private smoothing = 0.2`. -/
def smoothing : ℚ := 2/10

/-- Zoom sensitivity, source line 29: `private zoomSensitivity = 3000`. -/
def zoomSensitivity : ℚ := 3000

/-- Pinch threshold, source line 117: `distance < 0.06`. -/
def pinchThreshold : ℚ := 6/100

/-- Squared distance between two landmarks (the radicand `dx*dx + dy*dy` at
source line 114). -/
def distSq (p q : Landmark) : ℚ :=
  (p.x - q.x) * (p.x - q.x) + (p.y - q.y) * (p.y - q.y)

/-- Pinch classification, source lines 111-117:
`isPinching = sqrt(dx*dx + dy*dy) < 0.06`, written with both sides squared
(equivalent since both are nonnegative; see
`pinch_iff_distance_below_threshold`). -/
def isPinchingB (indexTip thumbTip : Landmark) : Bool :=
  decide (distSq indexTip thumbTip < pinchThreshold * pinchThreshold)

/-- Real-valued Euclidean distance between two landmarks, the exact value
`Math.sqrt(dx*dx + dy*dy)` computed at source line 114. -/
noncomputable def euclideanDist (p q : Landmark) : ℝ :=
  Real.sqrt (((p.x : ℝ) - (q.x : ℝ))^2 + ((p.y : ℝ) - (q.y : ℝ))^2)

/-- The public gesture vocabulary, source line 129. -/
inductive Gesture
  | OPEN
  | PINCH
  | SCROLL
  deriving DecidableEq, Repr

/-- The public cursor state sent to the host callback, source lines 210-215. -/
structure CursorState where
  x : ℚ
  y : ℚ
  isDown : Bool
  gesture : Gesture
  deriving DecidableEq, Repr

/-- A DOM element as seen by `getScrollParent` (source lines 278-292): whether
it is an `HTMLElement`, its computed overflow styles, and its scroll/client
extents. -/
structure DomNode where
  isHtmlElement : Bool
  overflowY : String
  overflowX : String
  scrollHeight : ℚ
  clientHeight : ℚ
  scrollWidth : ℚ
  clientWidth : ℚ
  deriving DecidableEq, Repr

/-- Computed-style scrollability test, source lines 282-285. -/
def isScrollableStyle (n : DomNode) : Bool :=
  (n.overflowY != "visible" && n.overflowY != "hidden") ||
  (n.overflowX != "visible" && n.overflowX != "hidden")

/-- Scroll-target resolution, source lines 278-292.  The argument is the
ancestor chain starting at the element under the cursor (the result of
`document.elementFromPoint` followed by repeated `parentElement`); `[]` plays
the role of a `null` node.  Returns the first ancestor that is an
`HTMLElement` whose computed overflow allows scrolling and whose content
overflows its client box in some axis. -/
def getScrollParent : List DomNode → Option DomNode
  | [] => none
  | node :: ancestors =>
    if node.isHtmlElement && isScrollableStyle node &&
        (decide (node.scrollHeight > node.clientHeight) ||
         decide (node.scrollWidth > node.clientWidth)) then
      some node
    else
      getScrollParent ancestors

/-- One side effect performed by the detect loop during a frame, in source
order: a `dispatchPointerEvent(ty, x, y, buttons)` call, a
`dispatchWheelEvent(x, y, deltaY)` call, a `dispatchClickEvent(x, y)` call, a
`scrollable.scrollBy(dx, dy)` call on a resolved scroll target, or the host
`callback` invocation. -/
inductive Effect
  | pointer (ty : String) (x y : ℚ) (buttons : ℕ)
  | wheel (x y deltaY : ℚ)
  | click (x y : ℚ)
  | scrollBy (target : DomNode) (dx dy : ℚ)
  | update (c : CursorState)
  deriving DecidableEq, Repr

/-- The cross-frame mutable state of `HandTrackingService`, source
lines 13-28 (smoothing variables, interaction logic, zoom/depth logic). -/
structure EngineState where
  cursorX : ℚ
  cursorY : ℚ
  targetX : ℚ
  targetY : ℚ
  wasPinching : Bool
  pinchStartTime : ℤ
  isScrolling : Bool
  lastScrollX : ℚ
  lastScrollY : ℚ
  lastHandScale : ℚ
  deriving DecidableEq, Repr

/-- Initial engine state, source lines 14-28: cursor and target at the screen
center, everything else zero/false. -/
def initEngineState (screenW screenH : ℚ) : EngineState where
  cursorX := screenW / 2
  cursorY := screenH / 2
  targetX := screenW / 2
  targetY := screenH / 2
  wasPinching := false
  pinchStartTime := 0
  isScrolling := false
  lastScrollX := 0
  lastScrollY := 0
  lastHandScale := 0

/-- The per-frame input of the detect loop: the detected hand, if any
(`none` embeds `result.landmarks.length == 0`, the no-hand frame), the
current `Date.now()` timestamp, and the DOM ancestor chain under the cursor
(what `document.elementFromPoint` + `parentElement` walking would see). -/
structure FrameInput where
  hand : Option HandData
  now : ℤ
  domChain : List DomNode
  deriving DecidableEq, Repr

/-- One smoothing update, source lines 107-109:
`cursor += (target - cursor) * smoothing`. -/
def smoothStep (c t : ℚ) : ℚ := c + (t - c) * smoothing

/-- The smoothing update iterated `n` frames against a fixed target `t`. -/
def smoothIter (t : ℚ) : ℕ → ℚ → ℚ
  | 0, c => c
  | n + 1, c => smoothStep (smoothIter t n c) t

/-- The body of one `detectLoop` pass with a fresh video frame, source
lines 91-217, as a pure step: previous engine state and frame input to next
engine state and the ordered list of side effects.  A frame with no detected
hand (source: `result.landmarks.length == 0`) changes nothing and performs
nothing.  Otherwise, in source order: update targets and lerp the cursor
(lines 100-109), classify the pinch (lines 111-117), dispatch `pointermove`
(line 134), then run exactly one of the pinch start / hold / release blocks
(lines 139-204), set `wasPinching` (line 206) and invoke the callback
(lines 209-216). -/
def detectStep (screenW screenH : ℚ) (s : EngineState) (inp : FrameInput) :
    EngineState × List Effect :=
  match inp.hand with
  | none => (s, [])
  | some hd =>
    let rx := (1 - hd.indexTip.x) * screenW
    let ry := hd.indexTip.y * screenH
    let cx := smoothStep s.cursorX rx
    let cy := smoothStep s.cursorY ry
    let pinching := isPinchingB hd.indexTip hd.thumbTip
    let currentScale := hd.handScale
    let moveEff : Effect := Effect.pointer "pointermove" cx cy (if pinching then 1 else 0)
    if pinching && !s.wasPinching then
      -- 1. Pinch Start (lines 139-148)
      ({ cursorX := cx, cursorY := cy, targetX := rx, targetY := ry, wasPinching := true, pinchStartTime := inp.now, isScrolling := false, lastScrollX := cx, lastScrollY := cy, lastHandScale := currentScale },
       [moveEff, Effect.pointer "pointerdown" cx cy 1,
        Effect.update ⟨cx, cy, true, Gesture.PINCH⟩])
    else if pinching && s.wasPinching then
      -- 2. Pinch Hold (lines 151-189)
      let duration := inp.now - s.pinchStartTime
      if duration > 2000 then
        let dX := cx - s.lastScrollX
        let dY := cy - s.lastScrollY
        let panEffs : List Effect :=
          if |dX| > 1 ∨ |dY| > 1 then
            match getScrollParent inp.domChain with
            | some el => [Effect.scrollBy el (dX * (-3/2)) (dY * (-3/2))]
            | none => []
          else []
        let scaleDelta := currentScale - s.lastHandScale
        let wheelEffs : List Effect :=
          if |scaleDelta| > 2/1000 then
            [Effect.wheel cx cy (-scaleDelta * zoomSensitivity)]
          else []
        ({ s with cursorX := cx, cursorY := cy, targetX := rx, targetY := ry, wasPinching := true, isScrolling := true, lastScrollX := cx, lastScrollY := cy, lastHandScale := currentScale },
         moveEff :: (panEffs ++ wheelEffs ++ [Effect.update ⟨cx, cy, true, Gesture.SCROLL⟩]))
      else
        ({ s with cursorX := cx, cursorY := cy, targetX := rx, targetY := ry, wasPinching := true, lastScrollX := cx, lastScrollY := cy, lastHandScale := currentScale },
         [moveEff, Effect.update ⟨cx, cy, true, Gesture.PINCH⟩])
    else if !pinching && s.wasPinching then
      -- 3. Pinch Release (lines 192-204)
      let duration := inp.now - s.pinchStartTime
      let clickEffs : List Effect :=
        if s.isScrolling = false ∧ duration > 200 ∧ duration < 1800 then
          [Effect.click cx cy]
        else []
      ({ s with cursorX := cx, cursorY := cy, targetX := rx, targetY := ry, wasPinching := false, isScrolling := false },
       moveEff :: Effect.pointer "pointerup" cx cy 0 ::
         (clickEffs ++ [Effect.update ⟨cx, cy, false, Gesture.OPEN⟩]))
    else
      ({ s with cursorX := cx, cursorY := cy, targetX := rx, targetY := ry, wasPinching := false },
       [moveEff, Effect.update ⟨cx, cy, false, Gesture.OPEN⟩])

/-- Recognizer for click side effects. -/
def isClickEffect : Effect → Bool
  | Effect.click _ _ => true
  | _ => false

/-- Number of `dispatchClickEvent` calls in a frame's effect list. -/
def clickCount (l : List Effect) : ℕ := l.countP isClickEffect

/-- Recognizer for wheel side effects. -/
def isWheelEffect : Effect → Bool
  | Effect.wheel _ _ _ => true
  | _ => false

/-- Number of `dispatchWheelEvent` calls in a frame's effect list. -/
def wheelCount (l : List Effect) : ℕ := l.countP isWheelEffect

/-- Recognizer for scroll-by side effects. -/
def isScrollByEffect : Effect → Bool
  | Effect.scrollBy _ _ _ => true
  | _ => false

/-- Number of `scrollable.scrollBy` calls in a frame's effect list. -/
def scrollByCount (l : List Effect) : ℕ := l.countP isScrollByEffect

/-- The gestures reported to the host callback during a frame, in order. -/
def reportedGestures (l : List Effect) : List Gesture :=
  l.filterMap fun e =>
    match e with
    | Effect.update c => some c.gesture
    | _ => none

/-- The camera/detector resource state of the service: the video element's
media-stream tracks (if a video exists), the hand landmarker handle, and the
pending animation-frame id (source lines 7-10). -/
structure ServiceState where
  video : Option (List ℕ)
  handLandmarker : Option ℕ
  animationId : Option ℤ
  engine : EngineState
  deriving DecidableEq, Repr

/-- A side effect of `disconnect`, source lines 294-304. -/
inductive TeardownEffect
  | cancelAnimation (id : ℤ)
  | stopTrack (t : ℕ)
  | removeVideo
  | closeLandmarker
  deriving DecidableEq, Repr

/-- Teardown, source lines 294-304: cancel the animation frame when the id is
truthy (a `0` id is falsy in JavaScript, hence the extra test), stop every
track of the video's stream and remove the video when one exists, nulling the
field, and close and null the hand landmarker.  `animationId` itself is not
nulled by the source. -/
def disconnect (s : ServiceState) : ServiceState × List TeardownEffect :=
  let cancelEffs : List TeardownEffect :=
    match s.animationId with
    | some id => if id ≠ 0 then [TeardownEffect.cancelAnimation id] else []
    | none => []
  let videoEffs : List TeardownEffect :=
    match s.video with
    | some tracks => tracks.map TeardownEffect.stopTrack ++ [TeardownEffect.removeVideo]
    | none => []
  let closeEffs : List TeardownEffect :=
    match s.handLandmarker with
    | some _ => [TeardownEffect.closeLandmarker]
    | none => []
  ({ s with video := none, handLandmarker := none },
   cancelEffs ++ videoEffs ++ closeEffs)

/-- A never-connected service: no video, no landmarker, no scheduled frame
(source lines 7-9 initialize all three fields to `null`). -/
def initServiceState (screenW screenH : ℚ) : ServiceState where
  video := none
  handLandmarker := none
  animationId := none
  engine := initEngineState screenW screenH

/-- A hand whose index fingertip and thumb tip coincide: a pinching hand. -/
def pinchHand : HandData := ⟨⟨1/2, 1/2⟩, ⟨1/2, 1/2⟩, 1/10⟩

/-- A hand whose fingertip-to-thumb distance is 1/5, well above the pinch
threshold: an open hand. -/
def openHand : HandData := ⟨⟨1/2, 1/2⟩, ⟨7/10, 1/2⟩, 1/10⟩

/-- An engine state in the middle of a pinch session that never entered
scroll mode, with the pinch having started at time 0. -/
def midPinchState : EngineState :=
  { initEngineState 1000 1000 with wasPinching := true, pinchStartTime := 0 }

/-- An engine state in the middle of a pinch session that has entered scroll
mode. -/
def scrollingState : EngineState := { midPinchState with isScrolling := true }

/-- A DOM element that is scrollable: an `HTMLElement` with `overflow-y:
auto` whose content height exceeds its client height. -/
def scrollableNode : DomNode :=
  { isHtmlElement := true, overflowY := "auto", overflowX := "visible",
    scrollHeight := 100, clientHeight := 50, scrollWidth := 100, clientWidth := 100 }

/-- The raw (mirrored) cursor target x, source line 100. -/
def rawTargetX (screenW : ℚ) (hd : HandData) : ℚ := (1 - hd.indexTip.x) * screenW

/-- The raw cursor target y, source line 101. -/
def rawTargetY (screenH : ℚ) (hd : HandData) : ℚ := hd.indexTip.y * screenH

/-- The smoothed cursor x after one frame with hand `hd`, source line 108. -/
def nextCursorX (screenW : ℚ) (s : EngineState) (hd : HandData) : ℚ :=
  smoothStep s.cursorX (rawTargetX screenW hd)

/-- The smoothed cursor y after one frame with hand `hd`, source line 109. -/
def nextCursorY (screenH : ℚ) (s : EngineState) (hd : HandData) : ℚ :=
  smoothStep s.cursorY (rawTargetY screenH hd)

/-! ## Helper lemmas: branch unfoldings of `detectStep` -/

/-- Unfolding of the pinch-release branch of `detectStep` (source
lines 192-204). -/
lemma detectStep_release_eq (screenW screenH : ℚ) (s : EngineState) (hd : HandData)
    (now : ℤ) (chain : List DomNode) (hw : s.wasPinching = true)
    (hp : isPinchingB hd.indexTip hd.thumbTip = false) :
    detectStep screenW screenH s ⟨some hd, now, chain⟩ =
      ({ s with cursorX := nextCursorX screenW s hd, cursorY := nextCursorY screenH s hd, targetX := rawTargetX screenW hd, targetY := rawTargetY screenH hd, wasPinching := false, isScrolling := false },
       Effect.pointer "pointermove" (nextCursorX screenW s hd) (nextCursorY screenH s hd) 0 ::
       Effect.pointer "pointerup" (nextCursorX screenW s hd) (nextCursorY screenH s hd) 0 ::
       ((if s.isScrolling = false ∧ now - s.pinchStartTime > 200 ∧ now - s.pinchStartTime < 1800 then
           [Effect.click (nextCursorX screenW s hd) (nextCursorY screenH s hd)]
         else []) ++
        [Effect.update ⟨nextCursorX screenW s hd, nextCursorY screenH s hd, false, Gesture.OPEN⟩])) := by
  simp only [detectStep, hp, hw, Bool.false_and, Bool.not_true, Bool.and_false,
    Bool.not_false, Bool.true_and, if_false, if_true, Bool.false_eq_true,
    cond_false, cond_true]
  rfl

/-- Unfolding of the pinch-hold branch of `detectStep` in scroll mode, i.e.
with the dwell threshold passed (source lines 151-189, `duration > 2000`). -/
lemma detectStep_hold_scroll_eq (screenW screenH : ℚ) (s : EngineState) (hd : HandData)
    (now : ℤ) (chain : List DomNode) (hw : s.wasPinching = true)
    (hp : isPinchingB hd.indexTip hd.thumbTip = true)
    (hdur : now - s.pinchStartTime > 2000) :
    detectStep screenW screenH s ⟨some hd, now, chain⟩ =
      ({ s with cursorX := nextCursorX screenW s hd, cursorY := nextCursorY screenH s hd, targetX := rawTargetX screenW hd, targetY := rawTargetY screenH hd, wasPinching := true, isScrolling := true, lastScrollX := nextCursorX screenW s hd, lastScrollY := nextCursorY screenH s hd, lastHandScale := hd.handScale },
       Effect.pointer "pointermove" (nextCursorX screenW s hd) (nextCursorY screenH s hd) 1 ::
       ((if |nextCursorX screenW s hd - s.lastScrollX| > 1 ∨ |nextCursorY screenH s hd - s.lastScrollY| > 1 then
           match getScrollParent chain with
           | some el => [Effect.scrollBy el ((nextCursorX screenW s hd - s.lastScrollX) * (-3/2)) ((nextCursorY screenH s hd - s.lastScrollY) * (-3/2))]
           | none => []
         else []) ++
        (if |hd.handScale - s.lastHandScale| > 2/1000 then
           [Effect.wheel (nextCursorX screenW s hd) (nextCursorY screenH s hd) (-(hd.handScale - s.lastHandScale) * zoomSensitivity)]
         else []) ++
        [Effect.update ⟨nextCursorX screenW s hd, nextCursorY screenH s hd, true, Gesture.SCROLL⟩])) := by
  simp only [detectStep, hp, hw, Bool.not_true, Bool.and_false, Bool.true_and,
    if_false, Bool.false_eq_true, if_true, hdur, if_pos]
  rfl

/-- Unfolding of the pinch-hold branch of `detectStep` before the dwell
threshold (source lines 151-189, `duration <= 2000`). -/
lemma detectStep_hold_press_eq (screenW screenH : ℚ) (s : EngineState) (hd : HandData)
    (now : ℤ) (chain : List DomNode) (hw : s.wasPinching = true)
    (hp : isPinchingB hd.indexTip hd.thumbTip = true)
    (hdur : ¬(now - s.pinchStartTime > 2000)) :
    detectStep screenW screenH s ⟨some hd, now, chain⟩ =
      ({ s with cursorX := nextCursorX screenW s hd, cursorY := nextCursorY screenH s hd, targetX := rawTargetX screenW hd, targetY := rawTargetY screenH hd, wasPinching := true, lastScrollX := nextCursorX screenW s hd, lastScrollY := nextCursorY screenH s hd, lastHandScale := hd.handScale },
       [Effect.pointer "pointermove" (nextCursorX screenW s hd) (nextCursorY screenH s hd) 1,
        Effect.update ⟨nextCursorX screenW s hd, nextCursorY screenH s hd, true, Gesture.PINCH⟩]) := by
  simp only [detectStep, hp, hw, Bool.not_true, Bool.and_false, Bool.true_and,
    if_false, Bool.false_eq_true, if_true, hdur]
  rfl

/-- Unfolding of the pinch-start branch of `detectStep` (source
lines 139-148). -/
lemma detectStep_start_eq (screenW screenH : ℚ) (s : EngineState) (hd : HandData)
    (now : ℤ) (chain : List DomNode) (hw : s.wasPinching = false)
    (hp : isPinchingB hd.indexTip hd.thumbTip = true) :
    detectStep screenW screenH s ⟨some hd, now, chain⟩ =
      ({ cursorX := nextCursorX screenW s hd, cursorY := nextCursorY screenH s hd, targetX := rawTargetX screenW hd, targetY := rawTargetY screenH hd, wasPinching := true, pinchStartTime := now, isScrolling := false, lastScrollX := nextCursorX screenW s hd, lastScrollY := nextCursorY screenH s hd, lastHandScale := hd.handScale },
       [Effect.pointer "pointermove" (nextCursorX screenW s hd) (nextCursorY screenH s hd) 1,
        Effect.pointer "pointerdown" (nextCursorX screenW s hd) (nextCursorY screenH s hd) 1,
        Effect.update ⟨nextCursorX screenW s hd, nextCursorY screenH s hd, true, Gesture.PINCH⟩]) := by
  simp only [detectStep, hp, hw, Bool.not_false, Bool.and_true, Bool.true_and, if_true]
  rfl

/-- The cursor after any hand frame is the lerp of the previous cursor
toward the raw target, whatever branch of the interaction logic runs. -/
lemma detectStep_cursor_eq (screenW screenH : ℚ) (s : EngineState) (hd : HandData)
    (now : ℤ) (chain : List DomNode) :
    (detectStep screenW screenH s ⟨some hd, now, chain⟩).1.cursorX = nextCursorX screenW s hd ∧
    (detectStep screenW screenH s ⟨some hd, now, chain⟩).1.cursorY = nextCursorY screenH s hd ∧
    (detectStep screenW screenH s ⟨some hd, now, chain⟩).1.targetX = rawTargetX screenW hd ∧
    (detectStep screenW screenH s ⟨some hd, now, chain⟩).1.targetY = rawTargetY screenH hd ∧
    (detectStep screenW screenH s ⟨some hd, now, chain⟩).1.wasPinching = isPinchingB hd.indexTip hd.thumbTip := by
  simp only [detectStep]
  split_ifs with h1 h2 h3 h4 <;> exact ⟨rfl, rfl, rfl, rfl, by simp_all⟩

/-! ## Helper lemmas: the smoother -/

/-- One smoothing step leaves the target-to-cursor gap at 4/5 of its size. -/
lemma smoothStep_gap (c t : ℚ) : t - smoothStep c t = (t - c) * (4/5) := by
  simp only [smoothStep, smoothing]; ring

/-- One smoothing step never increases the distance to the target. -/
lemma dist_smoothStep_le (c t : ℚ) : |t - smoothStep c t| ≤ |t - c| := by
  rw [smoothStep_gap, abs_mul, show |(4/5 : ℚ)| = 4/5 by norm_num]
  nlinarith [abs_nonneg (t - c)]

/-- One smoothing step stays inside the closed interval spanned by the
previous cursor `c` and the target `t`. -/
lemma smoothStep_mem_interval {c t x : ℚ} (h1 : min c t ≤ x) (h2 : x ≤ max c t) :
    min c t ≤ smoothStep x t ∧ smoothStep x t ≤ max c t := by
  have hmt : min c t ≤ t := min_le_right c t
  have htM : t ≤ max c t := le_max_right c t
  constructor <;> (simp only [smoothStep, smoothing]; linarith)

/-- The iterated smoother stays inside the interval spanned by the initial
cursor and the fixed target. -/
lemma smoothIter_mem_interval (t c : ℚ) (n : ℕ) :
    min c t ≤ smoothIter t n c ∧ smoothIter t n c ≤ max c t := by
  induction n with
  | zero => exact ⟨min_le_left c t, le_max_left c t⟩
  | succ n ih => exact smoothStep_mem_interval ih.1 ih.2

/-! ## Theorems -/

/-- Claim C3: on a frame with no detected hand the engine performs no side
effect at all (no pointer, wheel, click or scroll-by dispatch and no host
callback) and the whole engine state — cursor, targets, `wasPinching`,
`pinchStartTime`, `isScrolling`, `lastScrollX/Y`, `lastHandScale` — is
unchanged. -/
theorem no_hand_frame_is_inert (screenW screenH : ℚ) (s : EngineState)
    (now : ℤ) (domChain : List DomNode) :
    detectStep screenW screenH s ⟨none, now, domChain⟩ = (s, []) := rfl

/-- Claim C4: the smoother updates the cursor each frame by
`cursor += (target - cursor) * 0.2` starting from the screen center, and for
a fixed target the cursor's distance to the target never increases from one
frame to the next and the cursor never leaves the closed interval spanned by
its starting position and the target (no overshoot). -/
theorem smoother_monotone_no_overshoot (screenW screenH c t : ℚ) (n : ℕ)
    (s : EngineState) (hd : HandData) (now : ℤ) (chain : List DomNode) :
    (initEngineState screenW screenH).cursorX = screenW / 2 ∧
    (initEngineState screenW screenH).cursorY = screenH / 2 ∧
    (detectStep screenW screenH s ⟨some hd, now, chain⟩).1.cursorX
      = smoothStep s.cursorX ((1 - hd.indexTip.x) * screenW) ∧
    (detectStep screenW screenH s ⟨some hd, now, chain⟩).1.cursorY
      = smoothStep s.cursorY (hd.indexTip.y * screenH) ∧
    |t - smoothStep c t| ≤ |t - c| ∧
    |t - smoothIter t (n + 1) c| ≤ |t - smoothIter t n c| ∧
    min c t ≤ smoothIter t n c ∧ smoothIter t n c ≤ max c t := by
  obtain ⟨hx, hy, -⟩ := detectStep_cursor_eq screenW screenH s hd now chain
  obtain ⟨hlo, hhi⟩ := smoothIter_mem_interval t c n
  exact ⟨rfl, rfl, hx, hy, dist_smoothStep_le c t,
    dist_smoothStep_le (smoothIter t n c) t, hlo, hhi⟩

/-- Claim C10: on every hand frame the raw cursor target is horizontally
mirrored, `targetX = (1 - indexTip.x) * screenWidth`, while
`targetY = indexTip.y * screenHeight` is un-mirrored; consequently moving the
index tip toward smaller camera x (the camera's left) moves the raw target
toward larger screen x (the screen's right). -/
theorem raw_target_mirrors_x (screenW screenH : ℚ) (s : EngineState) (hd : HandData)
    (now : ℤ) (chain : List DomNode) :
    (detectStep screenW screenH s ⟨some hd, now, chain⟩).1.targetX
      = (1 - hd.indexTip.x) * screenW ∧
    (detectStep screenW screenH s ⟨some hd, now, chain⟩).1.targetY
      = hd.indexTip.y * screenH ∧
    (∀ x₁ x₂ : ℚ, x₁ < x₂ → 0 < screenW →
      (1 - x₂) * screenW < (1 - x₁) * screenW) := by
  obtain ⟨-, -, htx, hty, -⟩ := detectStep_cursor_eq screenW screenH s hd now chain
  refine ⟨htx, hty, fun x₁ x₂ hx hw => ?_⟩
  have : 1 - x₂ < 1 - x₁ := by linarith
  exact mul_lt_mul_of_pos_right this hw

/-- Witness for `raw_target_mirrors_x` at a concrete hand and screen: index
tip at camera x = 2/5 versus 3/5, screen width 100. -/
theorem raw_target_mirrors_x_witness :
    (detectStep 100 100 (initEngineState 100 100) ⟨some openHand, 0, []⟩).1.targetX
      = (1 - openHand.indexTip.x) * 100 ∧
    (1 - (3/5 : ℚ)) * 100 < (1 - (2/5 : ℚ)) * 100 := by
  obtain ⟨h1, -, h3⟩ := raw_target_mirrors_x 100 100 (initEngineState 100 100) openHand 0 []
  exact ⟨h1, h3 (2/5) (3/5) (by norm_num) (by norm_num)⟩

/-- Claim C8: the pinch classification used by the detect loop is true
exactly when the Euclidean distance between the index fingertip and the thumb
tip is strictly below 0.06; a distance of exactly 0.06 is classified as not
pinching; and on every hand frame the stored `wasPinching` is exactly this
classification. -/
theorem pinch_iff_distance_below_threshold (p q : Landmark) :
    (isPinchingB p q = true ↔ euclideanDist p q < 6/100) ∧
    (euclideanDist p q = 6/100 → isPinchingB p q = false) ∧
    (∀ (screenW screenH : ℚ) (s : EngineState) (hd : HandData) (now : ℤ)
        (chain : List DomNode),
      (detectStep screenW screenH s ⟨some hd, now, chain⟩).1.wasPinching
        = isPinchingB hd.indexTip hd.thumbTip) := by
  have hiff : isPinchingB p q = true ↔ euclideanDist p q < 6/100 := by
    rw [isPinchingB, decide_eq_true_iff, euclideanDist,
      show ((p.x : ℝ) - (q.x : ℝ))^2 + ((p.y : ℝ) - (q.y : ℝ))^2
          = ((distSq p q : ℚ) : ℝ) by rw [distSq]; push_cast; ring,
      Real.sqrt_lt' (by norm_num : (0:ℝ) < 6/100),
      show ((6:ℝ)/100)^2 = ((pinchThreshold * pinchThreshold : ℚ) : ℝ) by
        rw [pinchThreshold]; push_cast; norm_num]
    exact ⟨fun hlt => by exact_mod_cast hlt, fun hlt => by exact_mod_cast hlt⟩
  refine ⟨hiff, fun heq => ?_, fun screenW screenH s hd now chain =>
    (detectStep_cursor_eq screenW screenH s hd now chain).2.2.2.2⟩
  cases hb : isPinchingB p q with
  | false => rfl
  | true =>
    have := hiff.mp hb
    rw [heq] at this
    exact absurd this (lt_irrefl _)

/-- Witness for `pinch_iff_distance_below_threshold`: landmarks exactly 0.06
apart are classified as not pinching. -/
theorem pinch_iff_distance_below_threshold_witness :
    euclideanDist ⟨0, 0⟩ ⟨6/100, 0⟩ = 6/100 ∧
    isPinchingB ⟨0, 0⟩ ⟨6/100, 0⟩ = false := by
  have hd : euclideanDist ⟨0, 0⟩ ⟨6/100, 0⟩ = 6/100 := by
    rw [euclideanDist,
      show ((((0:ℚ):ℝ)) - (((6/100:ℚ)):ℝ))^2 + ((((0:ℚ)):ℝ) - (((0:ℚ)):ℝ))^2
          = ((6:ℝ)/100)^2 by push_cast; ring]
    exact Real.sqrt_sq (by norm_num)
  exact ⟨hd, (pinch_iff_distance_below_threshold ⟨0, 0⟩ ⟨6/100, 0⟩).2.1 hd⟩

/-- Claim C1 counterexample: a pinch session of exactly 1800 ms that never
entered scroll mode produces no click on release — the upper boundary is
exclusive (`duration < 1800` at source line 199), so the claim's "1800 ms
produces a click" is false. -/
theorem click_at_1800ms_is_dropped :
    midPinchState.isScrolling = false ∧
    (1800 : ℤ) - midPinchState.pinchStartTime = 1800 ∧
    clickCount (detectStep 1000 1000 midPinchState ⟨some openHand, 1800, []⟩).2 = 0 := by
  refine ⟨rfl, rfl, ?_⟩
  decide

/-- Claim C1 amended: for a pinch session that never entered scroll mode,
releasing the pinch emits a click exactly when the session duration is
strictly between 200 ms and 1800 ms — both boundaries exclusive, so 200 ms
and 1800 ms produce no click while 201 ms and 1799 ms do. -/
theorem click_iff_duration_in_window (screenW screenH : ℚ) (s : EngineState)
    (hd : HandData) (now : ℤ) (chain : List DomNode)
    (hw : s.wasPinching = true) (hs : s.isScrolling = false)
    (hp : isPinchingB hd.indexTip hd.thumbTip = false) :
    clickCount (detectStep screenW screenH s ⟨some hd, now, chain⟩).2 =
      if now - s.pinchStartTime > 200 ∧ now - s.pinchStartTime < 1800 then 1 else 0 := by
  rw [detectStep_release_eq screenW screenH s hd now chain hw hp, hs]
  by_cases hcond : now - s.pinchStartTime > 200 ∧ now - s.pinchStartTime < 1800
  · rw [if_pos ⟨rfl, hcond⟩, if_pos hcond]
    simp [clickCount, isClickEffect, List.countP_cons, List.countP_nil, List.countP_append]
  · rw [if_neg (fun hc => hcond hc.2), if_neg hcond]
    simp [clickCount, isClickEffect, List.countP_cons, List.countP_nil, List.countP_append]

/-- Witness for `click_iff_duration_in_window`: a 201 ms pinch session
released with no scroll mode produces exactly one click. -/
theorem click_iff_duration_in_window_witness :
    clickCount (detectStep 1000 1000 midPinchState ⟨some openHand, 201, []⟩).2 = 1 := by
  have h := click_iff_duration_in_window 1000 1000 midPinchState openHand 201 []
    rfl rfl (by decide)
  rw [h]
  norm_num [midPinchState, initEngineState]

/-- Claim C2 counterexample: a pinch held for exactly 2000 ms of elapsed time
does not transition to scroll mode — the dwell comparison is strict
(`duration > 2000` at source line 155), so this frame keeps
`isScrolling = false` and reports gesture `PINCH`, not `SCROLL`. -/
theorem scroll_at_2000ms_not_entered :
    (2000 : ℤ) - midPinchState.pinchStartTime = 2000 ∧
    midPinchState.wasPinching = true ∧
    (detectStep 1000 1000 midPinchState ⟨some pinchHand, 2000, []⟩).1.isScrolling = false ∧
    reportedGestures (detectStep 1000 1000 midPinchState ⟨some pinchHand, 2000, []⟩).2
      = [Gesture.PINCH] := by
  refine ⟨rfl, rfl, ?_, ?_⟩ <;> decide

/-- Claim C2 amended: a continuing pinch enters scroll mode, sets
`isScrolling = true` and reports gesture `SCROLL` exactly when the elapsed
time since pinch start is strictly greater than the 2000 ms dwell threshold;
at exactly 2000 ms the session stays in the pressing state and reports
`PINCH`. -/
theorem scroll_dwell_strictly_greater (screenW screenH : ℚ) (s : EngineState)
    (hd : HandData) (now : ℤ) (chain : List DomNode)
    (hw : s.wasPinching = true) (hs : s.isScrolling = false)
    (hp : isPinchingB hd.indexTip hd.thumbTip = true) :
    ((detectStep screenW screenH s ⟨some hd, now, chain⟩).1.isScrolling = true
      ↔ now - s.pinchStartTime > 2000) ∧
    (reportedGestures (detectStep screenW screenH s ⟨some hd, now, chain⟩).2
        = [Gesture.SCROLL] ↔ now - s.pinchStartTime > 2000) ∧
    (¬(now - s.pinchStartTime > 2000) →
      (detectStep screenW screenH s ⟨some hd, now, chain⟩).1.isScrolling = false ∧
      reportedGestures (detectStep screenW screenH s ⟨some hd, now, chain⟩).2
        = [Gesture.PINCH]) := by
  by_cases hdur : now - s.pinchStartTime > 2000
  · have hscr : (detectStep screenW screenH s ⟨some hd, now, chain⟩).1.isScrolling = true := by
      rw [detectStep_hold_scroll_eq screenW screenH s hd now chain hw hp hdur]
    have hrep : reportedGestures (detectStep screenW screenH s ⟨some hd, now, chain⟩).2
        = [Gesture.SCROLL] := by
      rw [detectStep_hold_scroll_eq screenW screenH s hd now chain hw hp hdur]
      simp only [reportedGestures, List.filterMap_cons, List.filterMap_append]
      split_ifs <;> cases getScrollParent chain <;> simp
    exact ⟨iff_of_true hscr hdur, iff_of_true hrep hdur, fun hc => absurd hdur hc⟩
  · have hscr : (detectStep screenW screenH s ⟨some hd, now, chain⟩).1.isScrolling = false := by
      rw [detectStep_hold_press_eq screenW screenH s hd now chain hw hp hdur]
      exact hs
    have hrep : reportedGestures (detectStep screenW screenH s ⟨some hd, now, chain⟩).2
        = [Gesture.PINCH] := by
      rw [detectStep_hold_press_eq screenW screenH s hd now chain hw hp hdur]
      simp [reportedGestures]
    refine ⟨?_, ?_, fun _ => ⟨hscr, hrep⟩⟩
    · rw [hscr]
      simp [hdur]
    · rw [hrep]
      constructor
      · intro hg
        simp at hg
      · intro hc
        exact absurd hc hdur

/-- Witness for `scroll_dwell_strictly_greater`: a pinch held 2001 ms enters
scroll mode and reports `SCROLL`. -/
theorem scroll_dwell_strictly_greater_witness :
    (detectStep 1000 1000 midPinchState ⟨some pinchHand, 2001, []⟩).1.isScrolling = true ∧
    reportedGestures (detectStep 1000 1000 midPinchState ⟨some pinchHand, 2001, []⟩).2
      = [Gesture.SCROLL] := by
  have h := scroll_dwell_strictly_greater 1000 1000 midPinchState pinchHand 2001 []
    rfl rfl (by decide)
  exact ⟨h.1.mpr (by decide), h.2.1.mpr (by decide)⟩

/-- Claim C5: a pinch session that entered scroll mode never emits a click on
release: while the pinch continues, a session with `isScrolling = true` keeps
it true, and the release of a session with `isScrolling = true` emits no
click, whatever the total duration. -/
theorem scroll_session_never_clicks :
    (∀ (screenW screenH : ℚ) (s : EngineState) (hd : HandData) (now : ℤ)
        (chain : List DomNode),
      s.wasPinching = true → s.isScrolling = true →
      isPinchingB hd.indexTip hd.thumbTip = true →
      (detectStep screenW screenH s ⟨some hd, now, chain⟩).1.isScrolling = true) ∧
    (∀ (screenW screenH : ℚ) (s : EngineState) (hd : HandData) (now : ℤ)
        (chain : List DomNode),
      s.wasPinching = true → s.isScrolling = true →
      isPinchingB hd.indexTip hd.thumbTip = false →
      clickCount (detectStep screenW screenH s ⟨some hd, now, chain⟩).2 = 0) := by
  constructor
  · intro screenW screenH s hd now chain hw hs hp
    by_cases hdur : now - s.pinchStartTime > 2000
    · rw [detectStep_hold_scroll_eq screenW screenH s hd now chain hw hp hdur]
    · rw [detectStep_hold_press_eq screenW screenH s hd now chain hw hp hdur]
      exact hs
  · intro screenW screenH s hd now chain hw hs hp
    rw [detectStep_release_eq screenW screenH s hd now chain hw hp]
    simp [clickCount, isClickEffect, List.countP_cons, List.countP_append, hs]

/-- Witness for `scroll_session_never_clicks`: a scrolling session keeps
scrolling on a hold frame at 2500 ms and emits no click on release. -/
theorem scroll_session_never_clicks_witness :
    (detectStep 1000 1000 scrollingState ⟨some pinchHand, 2500, []⟩).1.isScrolling = true ∧
    clickCount (detectStep 1000 1000 scrollingState ⟨some openHand, 500, []⟩).2 = 0 :=
  ⟨scroll_session_never_clicks.1 1000 1000 scrollingState pinchHand 2500 []
      rfl rfl (by decide),
   scroll_session_never_clicks.2 1000 1000 scrollingState openHand 500 []
      rfl rfl (by decide)⟩

/-- Claim C6: on a scroll-mode frame (continuing pinch past the dwell
threshold) exactly one wheel dispatch occurs when the absolute scale delta
exceeds the 0.002 deadzone and none otherwise, and the dispatched wheel's
deltaY is `-scaleDelta * 3000`. -/
theorem wheel_dispatch_iff_deadzone (screenW screenH : ℚ) (s : EngineState)
    (hd : HandData) (now : ℤ) (chain : List DomNode)
    (hw : s.wasPinching = true) (hp : isPinchingB hd.indexTip hd.thumbTip = true)
    (hdur : now - s.pinchStartTime > 2000) :
    wheelCount (detectStep screenW screenH s ⟨some hd, now, chain⟩).2
      = (if |hd.handScale - s.lastHandScale| > 2/1000 then 1 else 0) ∧
    (|hd.handScale - s.lastHandScale| > 2/1000 →
      Effect.wheel (nextCursorX screenW s hd) (nextCursorY screenH s hd)
          (-(hd.handScale - s.lastHandScale) * 3000)
        ∈ (detectStep screenW screenH s ⟨some hd, now, chain⟩).2) := by
  rw [detectStep_hold_scroll_eq screenW screenH s hd now chain hw hp hdur]
  constructor
  · cases hgp : getScrollParent chain <;>
      split_ifs <;>
        simp [wheelCount, isWheelEffect, List.countP_cons, List.countP_nil,
          List.countP_append]
  · intro hdz
    rw [if_pos hdz]
    simp [zoomSensitivity]

/-- Witness for `wheel_dispatch_iff_deadzone`: a scale delta of 0.1 on a
scroll-mode frame produces exactly one wheel dispatch with deltaY
`-0.1 * 3000`. -/
theorem wheel_dispatch_iff_deadzone_witness :
    wheelCount (detectStep 1000 1000 midPinchState ⟨some pinchHand, 2500, []⟩).2 = 1 ∧
    Effect.wheel (nextCursorX 1000 midPinchState pinchHand)
        (nextCursorY 1000 midPinchState pinchHand)
        (-(pinchHand.handScale - midPinchState.lastHandScale) * 3000)
      ∈ (detectStep 1000 1000 midPinchState ⟨some pinchHand, 2500, []⟩).2 := by
  have h := wheel_dispatch_iff_deadzone 1000 1000 midPinchState pinchHand 2500 []
    rfl (by decide) (by decide)
  refine ⟨?_, h.2 (by decide)⟩
  rw [h.1]
  norm_num [pinchHand, midPinchState, initEngineState]
  rw [abs_of_pos (by norm_num : (0:ℚ) < 1/10)]
  norm_num

/-- Claim C7: on a scroll-mode frame whose cursor delta exceeds the 1-pixel
noise floor in some axis, the pan invokes `scrollBy` on the resolved scroll
target with the inverse amplified delta (`delta * -1.5` per axis) and is the
only scroll-by of the frame; when no scrollable ancestor exists the pan is
silently dropped (no scroll-by at all); and in both cases the engine state
receives exactly the unconditional update (cursor/target lerp,
`lastScrollX/Y` and `lastHandScale` refreshed, `isScrolling` set). -/
theorem pan_dispatch_and_silent_drop (screenW screenH : ℚ) (s : EngineState)
    (hd : HandData) (now : ℤ) (chain : List DomNode)
    (hw : s.wasPinching = true) (hp : isPinchingB hd.indexTip hd.thumbTip = true)
    (hdur : now - s.pinchStartTime > 2000) :
    (getScrollParent chain = none →
      scrollByCount (detectStep screenW screenH s ⟨some hd, now, chain⟩).2 = 0) ∧
    (∀ el, getScrollParent chain = some el →
      (|nextCursorX screenW s hd - s.lastScrollX| > 1 ∨
       |nextCursorY screenH s hd - s.lastScrollY| > 1) →
      Effect.scrollBy el ((nextCursorX screenW s hd - s.lastScrollX) * (-3/2))
          ((nextCursorY screenH s hd - s.lastScrollY) * (-3/2))
        ∈ (detectStep screenW screenH s ⟨some hd, now, chain⟩).2 ∧
      scrollByCount (detectStep screenW screenH s ⟨some hd, now, chain⟩).2 = 1) ∧
    (detectStep screenW screenH s ⟨some hd, now, chain⟩).1
      = { s with cursorX := nextCursorX screenW s hd, cursorY := nextCursorY screenH s hd, targetX := rawTargetX screenW hd, targetY := rawTargetY screenH hd, wasPinching := true, isScrolling := true, lastScrollX := nextCursorX screenW s hd, lastScrollY := nextCursorY screenH s hd, lastHandScale := hd.handScale } := by
  rw [detectStep_hold_scroll_eq screenW screenH s hd now chain hw hp hdur]
  refine ⟨?_, ?_, rfl⟩
  · intro hnone
    rw [hnone]
    split_ifs <;>
      simp [scrollByCount, isScrollByEffect, List.countP_cons, List.countP_nil,
        List.countP_append]
  · intro el hel hdelta
    rw [hel, if_pos hdelta]
    constructor
    · simp
    · split_ifs <;>
        simp [scrollByCount, isScrollByEffect, List.countP_cons, List.countP_nil,
          List.countP_append]

/-- Witness for `pan_dispatch_and_silent_drop`: with a scrollable ancestor
under the cursor and a 500-pixel delta, the frame issues exactly one
`scrollBy` with the inverse amplified delta; with an empty ancestor chain the
same frame issues none. -/
theorem pan_dispatch_and_silent_drop_witness :
    Effect.scrollBy scrollableNode
        ((nextCursorX 1000 midPinchState pinchHand - midPinchState.lastScrollX) * (-3/2))
        ((nextCursorY 1000 midPinchState pinchHand - midPinchState.lastScrollY) * (-3/2))
      ∈ (detectStep 1000 1000 midPinchState ⟨some pinchHand, 2500, [scrollableNode]⟩).2 ∧
    scrollByCount (detectStep 1000 1000 midPinchState ⟨some pinchHand, 2500, [scrollableNode]⟩).2 = 1 ∧
    scrollByCount (detectStep 1000 1000 midPinchState ⟨some pinchHand, 2500, []⟩).2 = 0 := by
  have hsome := (pan_dispatch_and_silent_drop 1000 1000 midPinchState pinchHand 2500
    [scrollableNode] rfl (by decide) (by decide)).2.1 scrollableNode (by decide) (by decide)
  have hnone := (pan_dispatch_and_silent_drop 1000 1000 midPinchState pinchHand 2500
    [] rfl (by decide) (by decide)).1 rfl
  exact ⟨hsome.1, hsome.2, hnone⟩

/-- Claim C9: `disconnect` on a never-connected service performs no teardown
effect and leaves the state unchanged, and `disconnect` is idempotent: a
second call yields the same service state (video and landmarker both `none`)
as the first. -/
theorem disconnect_idempotent (screenW screenH : ℚ) (s : ServiceState) :
    disconnect (initServiceState screenW screenH) = (initServiceState screenW screenH, []) ∧
    (disconnect (disconnect s).1).1 = (disconnect s).1 ∧
    (disconnect s).1.video = none ∧
    (disconnect s).1.handLandmarker = none := by
  refine ⟨rfl, ?_, rfl, rfl⟩
  simp [disconnect]

end HoloForge
